import Mathlib

/-!
Verification of the book/user REST service.

The service keeps two in-memory lists (`books`, `users`) and exposes CRUD
routes over them.  Python's module-level mutable lists are embedded by
explicit state passing: every mutating operation takes the current list and
returns the updated list together with the route's result.  An HTTPException
raised by a route is embedded as `Except.error` carrying the corresponding
entry of the error taxonomy (400 ValidationError, 401 Unauthorized,
404 NotFound, 429 TooManyRequests).
-/

/-- Error taxonomy of the service, keyed by the HTTP status each route raises. -/
inductive ApiError where
  | ValidationError
  | NotFound
  | Unauthorized
  | TooManyRequests
  deriving DecidableEq, Repr

/-- The unified Book model: `id` is assigned by the repository on creation
(`int | None` in the source model, so `Option Nat` here); `title`, `author`
and `description` are the client-supplied fields the routes read and write. -/
structure Book where
  id : Option Nat
  title : String
  author : String
  description : String
  deriving DecidableEq, Repr

/-- POST /books: validates `title` length ≤ 100, `author` length ≤ 50,
`description` length ≤ 500, raising 400 before any mutation; otherwise sets
`book.id = len(books) + 1`, appends `book.dict()` and returns the book. -/
def create_book (books : List Book) (book : Book) :
    List Book × Except ApiError Book :=
  if book.title.length > 100 then (books, .error .ValidationError)
  else if book.author.length > 50 then (books, .error .ValidationError)
  else if book.description.length > 500 then (books, .error .ValidationError)
  else
    (books ++ [{ book with id := some (books.length + 1) }],
     .ok { book with id := some (books.length + 1) })

/-- GET /books/\x7bbook_id\x7d: linear scan for the first stored record whose
`id` equals `book_id`; 404 if none matches. -/
def get_book (books : List Book) (book_id : Nat) : Except ApiError Book :=
  match books.find? (fun b => b.id == some book_id) with
  | some b => .ok b
  | none => .error .NotFound

/-- PUT /books/\x7bbook_id\x7d: linear scan; at the first index whose stored
`id` equals `book_id` the whole stored dict is replaced by `book.dict()`
(the candidate verbatim, its `id` field included) and the candidate is
returned; 404 if no index matches. -/
def update_book (books : List Book) (book_id : Nat) (book : Book) :
    List Book × Except ApiError Book :=
  match books with
  | [] => ([], .error .NotFound)
  | b :: rest =>
    if b.id == some book_id then (book :: rest, .ok book)
    else
      let r := update_book rest book_id book
      (b :: r.1, r.2)

/-- DELETE /books/\x7bbook_id\x7d: linear scan; deletes the first stored
record whose `id` equals `book_id`; 404 if none matches. -/
def delete_book (books : List Book) (book_id : Nat) :
    List Book × Except ApiError Unit :=
  match books with
  | [] => ([], .error .NotFound)
  | b :: rest =>
    if b.id == some book_id then (rest, .ok ())
    else
      let r := delete_book rest book_id
      (b :: r.1, r.2)

/-- Unfolding equation for `update_book` on a non-empty list. -/
theorem update_book_cons (b : Book) (rest : List Book) (k : Nat) (book : Book) :
    update_book (b :: rest) k book =
      if b.id == some k then (book :: rest, .ok book)
      else (b :: (update_book rest k book).1, (update_book rest k book).2) := rfl

/-- Unfolding equation for `delete_book` on a non-empty list. -/
theorem delete_book_cons (b : Book) (rest : List Book) (k : Nat) :
    delete_book (b :: rest) k =
      if b.id == some k then (rest, .ok ())
      else (b :: (delete_book rest k).1, (delete_book rest k).2) := rfl

/-- Unfolding equation for `get_book` on a non-empty list. -/
theorem get_book_cons (b : Book) (rest : List Book) (k : Nat) :
    get_book (b :: rest) k =
      if b.id == some k then .ok b else get_book rest k := by
  unfold get_book
  rw [List.find?_cons]
  cases hb : b.id == some k <;> simp

/-- C5: for every state and candidate, `create_book` fails with
`ValidationError` exactly when one of the three length bounds
(title ≤ 100, author ≤ 50, description ≤ 500) is violated, and succeeds,
returning the candidate with `id = current_count + 1`, exactly when all
three hold. -/
theorem C5_create_book_validation (books : List Book) (book : Book) :
    ((create_book books book).2 = .error .ValidationError ↔
      ¬ (book.title.length ≤ 100 ∧ book.author.length ≤ 50 ∧
         book.description.length ≤ 500)) ∧
    ((create_book books book).2 = .ok { book with id := some (books.length + 1) } ↔
      (book.title.length ≤ 100 ∧ book.author.length ≤ 50 ∧
       book.description.length ≤ 500)) := by
  unfold create_book
  by_cases h1 : book.title.length > 100 <;>
    by_cases h2 : book.author.length > 50 <;>
      by_cases h3 : book.description.length > 500 <;>
        (simp [h1, h2, h3]; try omega)

/-- C9: `get_book` fails with `NotFound` exactly when no stored book has the
requested id, and when it succeeds the returned record is a stored book whose
id is the requested one (the first such record in the linear scan). -/
theorem C9_get_book_notfound_iff (books : List Book) (k : Nat) :
    (get_book books k = .error .NotFound ↔ ∀ b ∈ books, b.id ≠ some k) ∧
    (∀ b, get_book books k = .ok b → b ∈ books ∧ b.id = some k) := by
  induction books with
  | nil =>
    refine ⟨⟨fun _ b hb => absurd hb (List.not_mem_nil b), fun _ => rfl⟩, ?_⟩
    intro b hb
    exact absurd hb (by simp [get_book])
  | cons b rest ih =>
    by_cases hid : b.id = some k
    · rw [get_book_cons, if_pos (by simp [hid])]
      refine ⟨⟨fun h => absurd h (by simp), fun h => absurd hid (h b (by simp))⟩, ?_⟩
      intro c hc
      cases hc
      exact ⟨List.mem_cons_self b rest, hid⟩
    · rw [get_book_cons, if_neg (by simp [hid])]
      refine ⟨⟨fun h => ?_, fun h => ih.1.mpr fun c hc => h c (List.mem_cons_of_mem b hc)⟩, ?_⟩
      · intro c hc
        rcases List.mem_cons.mp hc with rfl | hc2
        · exact hid
        · exact ih.1.mp h c hc2
      · intro c hc
        obtain ⟨hmem, hcid⟩ := ih.2 c hc
        exact ⟨List.mem_cons_of_mem b hmem, hcid⟩

/-- Concrete stored book used to instantiate C9. -/
def bkW : Book := { id := some 1, title := "T", author := "A", description := "D" }

/-- C9 witness: on the one-element store `[bkW]`, `get_book` at id 1 succeeds
and the returned record is stored with id 1. -/
theorem C9_witness : bkW ∈ [bkW] ∧ bkW.id = some 1 :=
  (C9_get_book_notfound_iff [bkW] 1).2 bkW rfl

/-- C10: every failing repository operation leaves the stored list unchanged:
a `create_book` that fails (with `ValidationError`) returns the original list,
and an `update_book` or `delete_book` that fails (with `NotFound`) does too. -/
theorem C10_failures_preserve_state (books : List Book) (book : Book) (k : Nat) :
    (∀ e, (create_book books book).2 = .error e → (create_book books book).1 = books) ∧
    (∀ e, (update_book books k book).2 = .error e → (update_book books k book).1 = books) ∧
    (∀ e, (delete_book books k).2 = .error e → (delete_book books k).1 = books) := by
  refine ⟨?_, ?_, ?_⟩
  · intro e h
    unfold create_book at h ⊢
    by_cases h1 : book.title.length > 100
    · simp [h1]
    · by_cases h2 : book.author.length > 50
      · simp [h1, h2]
      · by_cases h3 : book.description.length > 500
        · simp [h1, h2, h3]
        · simp [h1, h2, h3] at h
  · intro e h
    induction books with
    | nil => rfl
    | cons b rest ih =>
      rw [update_book_cons] at h ⊢
      cases hb : b.id == some k with
      | true => rw [if_pos hb] at h; cases h
      | false =>
        rw [if_neg (by simp [hb])] at h ⊢
        simp only [List.cons.injEq, true_and]
        exact ih h
  · intro e h
    induction books with
    | nil => rfl
    | cons b rest ih =>
      rw [delete_book_cons] at h ⊢
      cases hb : b.id == some k with
      | true => rw [if_pos hb] at h; cases h
      | false =>
        rw [if_neg (by simp [hb])] at h ⊢
        simp only [List.cons.injEq, true_and]
        exact ih h

/-- Candidate whose title has 101 characters, so `create_book` rejects it. -/
def overlongBook : Book :=
  { id := none, title := String.mk (List.replicate 101 'a'), author := "A",
    description := "D" }

/-- C10 witness: on the empty store, the rejected oversized create, and the
update and delete of the absent id 1, all leave the store empty. -/
theorem C10_witness :
    (create_book [] overlongBook).1 = [] ∧
    (update_book [] 1 overlongBook).1 = [] ∧
    (delete_book [] 1).1 = [] :=
  ⟨(C10_failures_preserve_state [] overlongBook 1).1 .ValidationError rfl,
   (C10_failures_preserve_state [] overlongBook 1).2.1 .NotFound rfl,
   (C10_failures_preserve_state [] overlongBook 1).2.2 .NotFound rfl⟩

/-- C2 counterexample: the PUT handler stores `book.dict()` wholesale, so the
candidate's own `id` field overwrites the stored id.  Updating the stored book
of id 1 with a candidate carrying `id = 2` succeeds, yet `get_book` at id 1
afterwards fails with `NotFound` — the claim's "preserving its id k" is false. -/
theorem C2_update_discards_stored_id :
    (update_book [{ id := some 1, title := "T", author := "A", description := "D" }] 1
        { id := some 2, title := "T2", author := "A2", description := "D2" }).2 =
      .ok { id := some 2, title := "T2", author := "A2", description := "D2" } ∧
    get_book
        (update_book [{ id := some 1, title := "T", author := "A", description := "D" }] 1
          { id := some 2, title := "T2", author := "A2", description := "D2" }).1 1 =
      .error .NotFound :=
  ⟨rfl, rfl⟩

/-- C2 amended: `update_book` replaces the stored record wholesale with the
candidate, the candidate's `id` field included; provided the candidate carries
`id = k`, a successful update at id k is reflected by `get_book` at k
returning exactly the candidate record. -/
theorem C2_update_with_matching_id (books : List Book) (k : Nat) (c : Book)
    (hc : c.id = some k) (hok : (update_book books k c).2 = .ok c) :
    get_book (update_book books k c).1 k = .ok c := by
  induction books with
  | nil => cases hok
  | cons b rest ih =>
    rw [update_book_cons] at hok ⊢
    by_cases hb : b.id = some k
    · rw [if_pos (by simp [hb])] at hok ⊢
      rw [get_book_cons, if_pos (by simp [hc])]
    · rw [if_neg (by simp [hb])] at hok ⊢
      rw [get_book_cons, if_neg (by simp [hb])]
      exact ih hok

/-- C2 witness: updating the stored book of id 1 with a candidate that also
carries id 1 makes `get_book` at id 1 return the candidate. -/
theorem C2_witness :
    get_book
        (update_book [{ id := some 1, title := "T", author := "A", description := "D" }] 1
          { id := some 1, title := "T2", author := "A2", description := "D2" }).1 1 =
      .ok { id := some 1, title := "T2", author := "A2", description := "D2" } :=
  C2_update_with_matching_id
    [{ id := some 1, title := "T", author := "A", description := "D" }] 1
    { id := some 1, title := "T2", author := "A2", description := "D2" } rfl rfl

/-- First book of the C3 failing sequence. -/
def c3b1 : Book := { id := none, title := "B1", author := "A1", description := "" }

/-- Second book of the C3 failing sequence. -/
def c3b2 : Book := { id := none, title := "B2", author := "A2", description := "" }

/-- Third book of the C3 failing sequence. -/
def c3b3 : Book := { id := none, title := "B3", author := "A3", description := "" }

/-- Store reached by create `c3b1`, create `c3b2`, delete id 1, create `c3b3`,
starting from the empty store. -/
def c3finalStore : List Book :=
  (create_book (delete_book (create_book (create_book [] c3b1).1 c3b2).1 1).1 c3b3).1

/-- C3 failing run: ids are assigned as `len(books) + 1`, so after creating
two books (ids 1, 2) and deleting id 1, the next create is assigned
`id = 1 + 1 = 2` — the id of the surviving book.  The final store holds two
books that share id 2, so the stored ids are not pairwise distinct. -/
theorem C3_duplicate_id_after_delete :
    c3finalStore.map Book.id = [some 2, some 2] ∧
    ¬ (c3finalStore.map Book.id).Nodup := by
  refine ⟨rfl, ?_⟩
  intro h
  rw [(rfl : c3finalStore.map Book.id = [some 2, some 2])] at h
  exact absurd h (by decide)

/-- Model of the external bcrypt primitive `bcrypt.hashpw(plain, salt)`:
a one-way salted hash whose output string encodes the cost header, the salt
and the hashed plaintext together.  The model keeps bcrypt's interface and
its algebraic contract — the output embeds the salt, differs for different
salts or plaintexts, and never equals the plaintext — with the salt encoded
in unary after the `$2b$12$` header. -/
def bhash (plain : String) (salt : Nat) : String :=
  "$2b$12$" ++ String.mk (List.replicate salt 'x') ++ "$" ++ plain

/-- Length of the leading run of salt characters. -/
def saltRun : List Char → Nat
  | [] => 0
  | c :: rest => if c = 'x' then saltRun rest + 1 else 0

/-- The salt embedded in a hash string: the salt run after the 7-character
`$2b$12$` header. -/
def saltOf (h : String) : Nat := saltRun (h.data.drop 7)

/-- Model of `bcrypt.checkpw(candidate, stored)`: recomputes the hash of the
candidate using the salt embedded in the stored hash string and compares. -/
def checkpw (candidate stored : String) : Bool :=
  bhash candidate (saltOf stored) == stored

/-- Model of `bcrypt.gensalt(rounds=12)` drawing from a salt source: each
call consumes the source and returns a fresh salt, successive draws being
distinct. -/
def gensalt (rng : Nat) : Nat × Nat := (rng, rng + 1)

/-- One call of `bcrypt.hashpw(plain, bcrypt.gensalt(rounds=12))`: draws a
fresh salt and hashes, returning the hash and the advanced salt source. -/
def hashpw (plain : String) (rng : Nat) : String × Nat :=
  (bhash plain (gensalt rng).1, (gensalt rng).2)

/-- The character data of an appended string. -/
theorem data_append (s t : String) : (s ++ t).data = s.data ++ t.data := rfl

/-- Two strings with the same character data are equal. -/
theorem string_data_inj {a b : String} (h : a.data = b.data) : a = b := by
  cases a
  cases b
  cases h
  rfl

/-- The character data of `bhash plain salt`, in cons form. -/
theorem bhash_data (p : String) (s : Nat) :
    (bhash p s).data =
      '$' :: '2' :: 'b' :: '$' :: '1' :: '2' :: '$' ::
        (List.replicate s 'x' ++ '$' :: p.data) := by
  show ((("$2b$12$" ++ String.mk (List.replicate s 'x')) ++ "$") ++ p).data = _
  rw [data_append, data_append, data_append]
  show ['$', '2', 'b', '$', '1', '2', '$'] ++ List.replicate s 'x' ++ ['$'] ++ p.data = _
  simp [List.append_assoc]

/-- Dropping the 7-character header of a hash exposes the salt run. -/
theorem bhash_drop (p : String) (s : Nat) :
    (bhash p s).data.drop 7 = List.replicate s 'x' ++ '$' :: p.data := by
  rw [bhash_data]
  rfl

/-- The salt run length of a salt run followed by a delimited tail. -/
theorem saltRun_replicate (s : Nat) (a : List Char) :
    saltRun (List.replicate s 'x' ++ '$' :: a) = s := by
  induction s with
  | zero =>
    show saltRun ('$' :: a) = 0
    unfold saltRun
    rw [if_neg (by decide)]
  | succ n ih =>
    rw [List.replicate_succ, List.cons_append]
    unfold saltRun
    rw [if_pos rfl, ih]

/-- The salt embedded in `bhash p s` is `s`. -/
theorem saltOf_bhash (p : String) (s : Nat) : saltOf (bhash p s) = s := by
  show saltRun ((bhash p s).data.drop 7) = s
  rw [bhash_drop]
  exact saltRun_replicate s p.data

/-- A salt run plus delimited tail determines the salt and the tail. -/
theorem replicate_append_inj (s t : Nat) (a b : List Char)
    (h : List.replicate s 'x' ++ '$' :: a = List.replicate t 'x' ++ '$' :: b) :
    s = t ∧ a = b := by
  induction s generalizing t with
  | zero =>
    cases t with
    | zero => simpa using h
    | succ m =>
      rw [List.replicate_succ] at h
      simp only [List.replicate, List.nil_append, List.cons_append,
        List.cons.injEq] at h
      exact absurd h.1 (by decide)
  | succ n ih =>
    cases t with
    | zero =>
      rw [List.replicate_succ] at h
      simp only [List.replicate, List.nil_append, List.cons_append,
        List.cons.injEq] at h
      exact absurd h.1 (by decide)
    | succ m =>
      rw [List.replicate_succ, List.replicate_succ] at h
      simp only [List.cons_append, List.cons.injEq, true_and] at h
      obtain ⟨hs, ha⟩ := ih m h
      exact ⟨by omega, ha⟩

/-- Two equal hash strings come from the same plaintext and the same salt. -/
theorem bhash_inj (p q : String) (s t : Nat) (h : bhash p s = bhash q t) :
    p = q ∧ s = t := by
  have hd : (bhash p s).data = (bhash q t).data := by rw [h]
  rw [bhash_data, bhash_data] at hd
  simp only [List.cons.injEq, true_and] at hd
  obtain ⟨hs, ha⟩ := replicate_append_inj s t p.data q.data hd
  exact ⟨string_data_inj ha, hs⟩

/-- C7: verifying a plaintext against its own hash succeeds; verifying any
other plaintext against that hash fails; different salts give different hash
strings; and two successive `hashpw` calls on the same plaintext (each drawing
a fresh salt from the source) produce unequal hash strings. -/
theorem C7_bcrypt_properties (p q : String) (s s1 s2 rng : Nat) :
    checkpw p (bhash p s) = true ∧
    (q ≠ p → checkpw q (bhash p s) = false) ∧
    (s1 ≠ s2 → bhash p s1 ≠ bhash p s2) ∧
    (hashpw p rng).1 ≠ (hashpw p (hashpw p rng).2).1 := by
  refine ⟨?_, ?_, ?_, ?_⟩
  · unfold checkpw
    rw [saltOf_bhash]
    simp
  · intro hq
    unfold checkpw
    rw [saltOf_bhash]
    cases hbe : bhash q s == bhash p s with
    | false => rfl
    | true =>
      have heq : bhash q s = bhash p s := by simpa using hbe
      exact absurd (bhash_inj q p s s heq).1 hq
  · intro hs hcontra
    exact hs (bhash_inj p p s1 s2 hcontra).2
  · intro hcontra
    have h2 := (bhash_inj p p rng (rng + 1) hcontra).2
    omega

/-- C7 witness: concrete instances of all four conjuncts at plaintexts
"pw1", "pw2" and salts 0 and 1. -/
theorem C7_witness :
    checkpw "pw1" (bhash "pw1" 0) = true ∧
    checkpw "pw2" (bhash "pw1" 0) = false ∧
    bhash "pw1" 0 ≠ bhash "pw1" 1 ∧
    (hashpw "pw1" 0).1 ≠ (hashpw "pw1" (hashpw "pw1" 0).2).1 :=
  ⟨(C7_bcrypt_properties "pw1" "pw2" 0 0 1 0).1,
   (C7_bcrypt_properties "pw1" "pw2" 0 0 1 0).2.1 (by decide),
   (C7_bcrypt_properties "pw1" "pw2" 0 0 1 0).2.2.1 (by decide),
   (C7_bcrypt_properties "pw1" "pw2" 0 0 1 0).2.2.2⟩

/-- The User model.  Constructing a User runs the `hash_password` pydantic
validator, which replaces the `password` value with its bcrypt hash — so
every constructed User carries a hash string in `password`, including Users
built from login payloads. -/
structure PyUser where
  id : Option Nat
  username : String
  password : String
  deriving DecidableEq, Repr

/-- Construction of a User from a client payload with plaintext password:
the `hash_password` validator hashes it with a fresh salt. -/
def mkUser (id : Option Nat) (username plain : String) (salt : Nat) : PyUser :=
  { id := id, username := username, password := bhash plain salt }

/-- POST /users: sets `user.id = len(users) + 1`, appends the user and
returns the full stored record. -/
def create_user (users : List PyUser) (user : PyUser) :
    List PyUser × PyUser :=
  (users ++ [{ user with id := some (users.length + 1) }],
   { user with id := some (users.length + 1) })

/-- A bearer token as presented to the service: either a structurally valid
JWT carrying subject, expiry and signature, or a malformed string that does
not decode. -/
inductive TokenStr where
  | jwt (sub : String) (exp : Nat) (sig : Nat)
  | malformed (raw : String)
  deriving DecidableEq, Repr

/-- Model of the HS256 MAC over the token payload under the server secret:
any concrete keyed tag function serves, since the service only ever compares
a presented signature against the recomputed one. -/
def hs256_sign (secret sub : String) (exp : Nat) : Nat :=
  (secret ++ "|" ++ sub).length * 2654435761 + exp

/-- Model of `jwt.encode(\x7b"sub": sub, "exp": exp\x7d, secret, HS256)`. -/
def jwt_encode (secret sub : String) (exp : Nat) : TokenStr :=
  .jwt sub exp (hs256_sign secret sub exp)

/-- Model of `jwt.decode(token, secret, ["HS256"])` at current time `now`:
raises InvalidTokenError (mapped to 401) on a malformed token, a signature
that does not match the recomputed MAC, or an expired token (`exp ≤ now`);
otherwise returns the payload subject. -/
def jwt_decode (token : TokenStr) (secret : String) (now : Nat) :
    Except ApiError String :=
  match token with
  | .malformed _ => .error .Unauthorized
  | .jwt sub exp sig =>
    if sig ≠ hs256_sign secret sub exp then .error .Unauthorized
    else if exp ≤ now then .error .Unauthorized
    else .ok sub

/-- The get_current_user dependency: decodes the bearer token, then resolves
the subject to the first stored user with that username; 401 if decoding
fails or no user matches. -/
def get_current_user (users : List PyUser) (token : TokenStr) (secret : String)
    (now : Nat) : Except ApiError PyUser :=
  match jwt_decode token secret now with
  | .error e => .error e
  | .ok username =>
    match users.find? (fun u => u.username == username) with
    | some u => .ok u
    | none => .error .Unauthorized

/-- POST /login: the request body was already passed through the User model,
so its `password` field holds a fresh bcrypt hash of the submitted plaintext;
looks up the first stored user with the same username and runs
`bcrypt.checkpw` on the payload's password field against the stored hash;
401 if the user is absent or the check fails, otherwise issues a token with
`exp = now + 3600` (one hour). -/
def login (users : List PyUser) (user : PyUser) (secret : String) (now : Nat) :
    Except ApiError TokenStr :=
  match users.find? (fun u => u.username == user.username) with
  | none => .error .Unauthorized
  | some existing_user =>
    if checkpw user.password existing_user.password then
      .ok (jwt_encode secret user.username (now + 3600))
    else .error .Unauthorized

/-- C1 failing run: create user "bob" with password "pw1", then log in with
exactly those credentials — the login fails with Unauthorized.  The User
model's `hash_password` validator rehashes the login payload's password, so
`bcrypt.checkpw` compares a fresh hash string (treated as a plaintext)
against the stored hash and can never succeed. -/
theorem C1_login_after_create_fails :
    login (create_user [] (mkUser none "bob" "pw1" 0)).1
      (mkUser none "bob" "pw1" 1) "secret" 1000 = .error .Unauthorized := by
  rfl

/-- A token built by `jwt_encode` decodes to its subject when not expired. -/
theorem jwt_decode_encode_valid (secret u : String) (e now : Nat) (h : ¬ e ≤ now) :
    jwt_decode (jwt_encode secret u e) secret now = .ok u := by
  show (if hs256_sign secret u e ≠ hs256_sign secret u e then
          (Except.error ApiError.Unauthorized : Except ApiError String)
        else if e ≤ now then Except.error ApiError.Unauthorized
        else Except.ok u) = Except.ok u
  rw [if_neg (by simp), if_neg h]

/-- A token built by `jwt_encode` fails to decode once expired. -/
theorem jwt_decode_encode_expired (secret u : String) (e now : Nat) (h : e ≤ now) :
    jwt_decode (jwt_encode secret u e) secret now = .error .Unauthorized := by
  show (if hs256_sign secret u e ≠ hs256_sign secret u e then
          (Except.error ApiError.Unauthorized : Except ApiError String)
        else if e ≤ now then Except.error ApiError.Unauthorized
        else Except.ok u) = Except.error ApiError.Unauthorized
  rw [if_neg (by simp), if_pos h]

/-- A token whose signature is not the recomputed MAC fails to decode. -/
theorem jwt_decode_badsig (secret sub : String) (exp sig now : Nat)
    (h : sig ≠ hs256_sign secret sub exp) :
    jwt_decode (.jwt sub exp sig) secret now = .error .Unauthorized := by
  show (if sig ≠ hs256_sign secret sub exp then
          (Except.error ApiError.Unauthorized : Except ApiError String)
        else if exp ≤ now then Except.error ApiError.Unauthorized
        else Except.ok sub) = Except.error ApiError.Unauthorized
  rw [if_pos h]

/-- `get_current_user` propagates a decoding failure. -/
theorem get_current_user_decode_error (users : List PyUser) (token : TokenStr)
    (secret : String) (now : Nat) (e : ApiError)
    (hd : jwt_decode token secret now = .error e) :
    get_current_user users token secret now = .error e := by
  unfold get_current_user
  rw [hd]

/-- `get_current_user` resolves a decoded subject via the credential store. -/
theorem get_current_user_decode_ok (users : List PyUser) (token : TokenStr)
    (secret : String) (now : Nat) (u : String) (usr : PyUser)
    (hd : jwt_decode token secret now = .ok u)
    (hf : users.find? (fun w => w.username == u) = some usr) :
    get_current_user users token secret now = .ok usr := by
  unfold get_current_user
  rw [hd]
  show (match users.find? (fun w => w.username == u) with
        | some v => (Except.ok v : Except ApiError PyUser)
        | none => Except.error ApiError.Unauthorized) = Except.ok usr
  rw [hf]

/-- C6: for a registered username (one that resolves in the credential
store), a token issued for it with expiry `t0 + 3600` resolves to that user
whenever presented before the expiry; presented after the expiry it fails
with Unauthorized, as does any token whose signature does not match the
recomputed MAC, and any malformed token. -/
theorem C6_token_verify (users : List PyUser) (secret u : String) (t0 now : Nat)
    (usr : PyUser)
    (hfind : users.find? (fun w => w.username == u) = some usr) :
    (now < t0 + 3600 →
      get_current_user users (jwt_encode secret u (t0 + 3600)) secret now = .ok usr) ∧
    (t0 + 3600 < now →
      get_current_user users (jwt_encode secret u (t0 + 3600)) secret now =
        .error .Unauthorized) ∧
    (∀ sub exp sig, sig ≠ hs256_sign secret sub exp →
      get_current_user users (.jwt sub exp sig) secret now = .error .Unauthorized) ∧
    (∀ raw, get_current_user users (.malformed raw) secret now = .error .Unauthorized) := by
  refine ⟨?_, ?_, ?_, ?_⟩
  · intro hnow
    exact get_current_user_decode_ok users _ secret now u usr
      (jwt_decode_encode_valid secret u (t0 + 3600) now (by omega)) hfind
  · intro hnow
    exact get_current_user_decode_error users _ secret now .Unauthorized
      (jwt_decode_encode_expired secret u (t0 + 3600) now (by omega))
  · intro sub exp sig hsig
    exact get_current_user_decode_error users _ secret now .Unauthorized
      (jwt_decode_badsig secret sub exp sig now hsig)
  · intro raw
    rfl

/-- The registered user instantiating C6. -/
def aliceU : PyUser := mkUser (some 1) "alice" "apw" 0

/-- C6 witness: with "alice" registered, a token issued at time 0 (expiry
3600) presented at time 100 resolves to alice's record. -/
theorem C6_witness :
    get_current_user [aliceU] (jwt_encode "sec" "alice" (0 + 3600)) "sec" 100 =
      .ok aliceU :=
  (C6_token_verify [aliceU] "sec" "alice" 0 100 aliceU rfl).1 (by omega)

/-- C8 counterexample: POST /users for username "newuser" returns the full
stored user record: the response's `password` field is exactly the bcrypt
hash of the submitted password, so the hash is exposed. -/
theorem C8_response_contains_hash :
    ((create_user [] (mkUser none "newuser" "newpassword" 3)).2).password =
      bhash "newpassword" 3 ∧
    ((create_user [] (mkUser none "newuser" "newpassword" 3)).2).id = some 1 ∧
    ((create_user [] (mkUser none "newuser" "newpassword" 3)).2).username =
      "newuser" :=
  ⟨rfl, rfl, rfl⟩

/-- C8 amended: the success response of POST /users is the full stored user
record — it contains the assigned id and the username, and also the bcrypt
password hash in its `password` field. -/
theorem C8_response_is_full_record (users : List PyUser) (name plain : String)
    (salt : Nat) :
    (create_user users (mkUser none name plain salt)).2 =
      { id := some (users.length + 1), username := name,
        password := bhash plain salt } := rfl

/-- Model of the lru_cache-decorated `get_request_count`: returns the cached
value for the identifier when present, otherwise evaluates the function body
— the constant 1 — and caches it. -/
def get_request_count (cache : List (String × Nat)) (ip : String) :
    Nat × List (String × Nat) :=
  match cache.find? (fun e => e.1 == ip) with
  | some e => (e.2, cache)
  | none => (1, cache ++ [(ip, 1)])

/-- The `rate_limit` dependency: reads the count for the client identifier;
raises 429 when it exceeds 100 (leaving the cache in place, since the raise
skips the clear); otherwise calls `cache_clear()` — wiping the whole cache —
and lets the request through. -/
def rate_limit (cache : List (String × Nat)) (ip : String) :
    List (String × Nat) × Except ApiError Unit :=
  if (get_request_count cache ip).1 > 100
  then ((get_request_count cache ip).2, .error .TooManyRequests)
  else ([], .ok ())

/-- Runs a sequence of requests through the gate, recording for each the
count the rate check observed and the check's outcome. -/
def run_gate (cache : List (String × Nat)) :
    List String → List (Nat × Except ApiError Unit)
  | [] => []
  | ip :: rest =>
    ((get_request_count cache ip).1, (rate_limit cache ip).2) ::
      run_gate (rate_limit cache ip).1 rest

/-- Unfolding equation for `run_gate` on a non-empty request list. -/
theorem run_gate_cons (cache : List (String × Nat)) (ip : String)
    (rest : List String) :
    run_gate cache (ip :: rest) =
      ((get_request_count cache ip).1, (rate_limit cache ip).2) ::
        run_gate (rate_limit cache ip).1 rest := rfl

/-- When every cached count is 1, the observed count is 1. -/
theorem get_request_count_one (cache : List (String × Nat)) (ip : String)
    (hinv : ∀ e ∈ cache, e.2 = 1) : (get_request_count cache ip).1 = 1 := by
  unfold get_request_count
  cases hf : cache.find? (fun e => e.1 == ip) with
  | none => rfl
  | some e =>
    simp only
    exact hinv e (List.mem_of_find?_eq_some hf)

/-- When every cached count is 1, the rate check passes and clears the cache. -/
theorem rate_limit_ok (cache : List (String × Nat)) (ip : String)
    (hinv : ∀ e ∈ cache, e.2 = 1) : rate_limit cache ip = ([], .ok ()) := by
  unfold rate_limit
  rw [get_request_count_one cache ip hinv, if_neg (by omega)]

/-- From any cache whose counts are all 1, every request in a run observes
count 1 and passes the rate check. -/
theorem run_gate_all_ok (ips : List String) (cache : List (String × Nat))
    (hinv : ∀ e ∈ cache, e.2 = 1) :
    ∀ p ∈ run_gate cache ips, p.1 = 1 ∧ p.2 = .ok () := by
  induction ips generalizing cache with
  | nil => intro p hp; cases hp
  | cons ip rest ih =>
    intro p hp
    rw [run_gate_cons, rate_limit_ok cache ip hinv] at hp
    rcases List.mem_cons.mp hp with rfl | htail
    · exact ⟨get_request_count_one cache ip hinv, rfl⟩
    · exact ih [] (by intro e he; cases he) p htail

/-- C4: starting from the empty cache (process start), every request of every
sequence observes a count of exactly 1 and passes the rate check —
TooManyRequests (429) is unreachable. -/
theorem C4_rate_limit_never_triggers (ips : List String) :
    ∀ p ∈ run_gate [] ips, p.1 = 1 ∧ p.2 = .ok () :=
  run_gate_all_ok ips [] (by intro e he; cases he)

/-- C4 witness: in the three-request run "a", "a", "b" the first recorded
check observed count 1 and passed. -/
theorem C4_witness :
    ((1 : Nat), (Except.ok () : Except ApiError Unit)).1 = 1 ∧
    ((1 : Nat), (Except.ok () : Except ApiError Unit)).2 = .ok () :=
  C4_rate_limit_never_triggers ["a", "a", "b"] (1, .ok ()) (List.Mem.head _)
